import Mathlib

/-!
Shallow embedding of the pydiction streaming subsystem (Kalshi market-data
client), covering the order-book engine, the websocket orderbook / lifecycle
handlers, the exchange-status projection, and the subscription client's
forced-unsubscription path.

Sources embedded:
- `src/packages/common/src/common/models/orderbook.py` (`Orderbook`)
- `src/packages/kalshi/src/kalshi/ws/handlers/orderbooks.py`
  (`KalshiOrderbookHandler.process`)
- `src/packages/kalshi/src/kalshi/ws/handlers/lifecycles.py`
  (`KalshiLifecycleHandler.process`)
- `src/packages/kalshi/src/kalshi/models/lifecycle.py` (`Lifecycle`)
- `src/packages/kalshi/src/kalshi/models/status.py` (`KalshiStatus.status`)
- `src/packages/kalshi/src/kalshi/ws/client.py` (`KalshiWsClient`)
- `src/src/pydiction/book.py` (the `Level` / `Delta` named tuples)

Python integers are unbounded, so prices, quantities and sequence numbers are
`Int`.  Python's `list.sort(key=...)` is a stable sort keyed on the price; any
stable sort produces the same output, so it is embedded as Mathlib's
`List.insertionSort` (which is stable) over the corresponding price relation.
-/

/-- A price level `(price, quantity)`; named tuple `Level` in the source. -/
structure Level where
  price : Int
  quantity : Int
deriving DecidableEq, Repr

/-- A delta message payload `(price, delta)`; named tuple `Delta` in the source. -/
structure Delta where
  price : Int
  delta : Int
deriving DecidableEq, Repr

/-- Bid ordering used by `Orderbook.sort`: bids are sorted by descending price
(`reverse=True` in the source). -/
def bidR (x y : Level) : Prop := y.price ≤ x.price

/-- Ask ordering used by `Orderbook.sort`: asks are sorted by ascending price. -/
def askR (x y : Level) : Prop := x.price ≤ y.price

instance : DecidableRel bidR := fun x y => inferInstanceAs (Decidable (y.price ≤ x.price))

instance : DecidableRel askR := fun x y => inferInstanceAs (Decidable (x.price ≤ y.price))

instance : IsTotal Level bidR := ⟨fun a b => Int.le_total b.price a.price⟩

instance : IsTotal Level askR := ⟨fun a b => Int.le_total a.price b.price⟩

instance : IsTrans Level bidR := ⟨fun _ _ _ hab hbc => le_trans hbc hab⟩

instance : IsTrans Level askR := ⟨fun _ _ _ hab hbc => le_trans hab hbc⟩

/-- Strict bid ordering: pairwise `bidS` states that a bid side is sorted by
strictly descending price, i.e. sorted with unique prices. -/
def bidS (x y : Level) : Prop := y.price < x.price

/-- Strict ask ordering: pairwise `askS` states that an ask side is sorted by
strictly ascending price, i.e. sorted with unique prices. -/
def askS (x y : Level) : Prop := x.price < y.price

instance : DecidableRel bidS := fun x y => inferInstanceAs (Decidable (y.price < x.price))

instance : DecidableRel askS := fun x y => inferInstanceAs (Decidable (x.price < y.price))

instance : IsAntisymm Level bidS :=
  ⟨fun _ _ hab hba => absurd (lt_trans hab hba) (lt_irrefl _)⟩

instance : IsAntisymm Level askS :=
  ⟨fun _ _ hab hba => absurd (lt_trans hab hba) (lt_irrefl _)⟩

/-- The two sides of the book.  The source passes `self.orderbook.bids` or
`self.orderbook.asks` (aliases into the book) to `Orderbook.update`; the
embedding names the chosen side instead. -/
inductive BookSide where
  | bids
  | asks
deriving DecidableEq, Repr

/-- `Orderbook` from `common/models/orderbook.py`: the current bids and asks. -/
structure Orderbook where
  bids : List Level
  asks : List Level
deriving DecidableEq, Repr

/-- Projection of the side of the book addressed by a `BookSide`. -/
def Orderbook.side (b : Orderbook) : BookSide → List Level
  | .bids => b.bids
  | .asks => b.asks

/-- `Orderbook.empty`: a fresh book holds a single `(0, 0)` sentinel level on
each side. -/
def Orderbook.empty : Orderbook :=
  { bids := [Level.mk 0 0], asks := [Level.mk 0 0] }

/-- `Orderbook.sort`: sorts bids by descending and asks by ascending price
(stable, as Python's `list.sort`). -/
def Orderbook.sort (b : Orderbook) : Orderbook :=
  { bids := b.bids.insertionSort bidR, asks := b.asks.insertionSort askR }

/-- The level-scan loop of `Orderbook.update`: walk the side; at the first
level whose price matches, add the delta to its quantity, keeping the level if
the new quantity is positive and popping it otherwise, then stop; if no price
matches, append a new level exactly when the delta is positive. -/
def updateSide (d : Delta) : List Level → List Level
  | [] => if 0 < d.delta then [Level.mk d.price d.delta] else []
  | l :: ls =>
    if d.price = l.price then
      if 0 < l.quantity + d.delta then Level.mk l.price (l.quantity + d.delta) :: ls
      else ls
    else l :: updateSide d ls

/-- `Orderbook.update`: apply a delta to the addressed side, then re-sort the
book (the source ends with `self.sort()`, which sorts both sides). -/
def Orderbook.update (b : Orderbook) (s : BookSide) (d : Delta) : Orderbook :=
  (match s with
   | .bids => { b with bids := updateSide d b.bids }
   | .asks => { b with asks := updateSide d b.asks }).sort

/-- `Orderbook.refresh`: replace the addressed side with a snapshot, then
re-sort the book.  The side is addressed by the strings `"bids"` / `"asks"`
as in the source; any other string leaves both sides alone (the `match`
in the source has no such case, so nothing is assigned). -/
def Orderbook.refresh (b : Orderbook) (side : String) (snapshot : List Level) : Orderbook :=
  (match side with
   | "bids" => { b with bids := snapshot }
   | "asks" => { b with asks := snapshot }
   | _ => b).sort

/-- `Orderbook.bba`: the best bid and ask, `None` when a side is an empty
list (`self.bids[0] if self.bids else None`). -/
def Orderbook.bba (b : Orderbook) : Option Level × Option Level :=
  (b.bids.head?, b.asks.head?)

/-- `Orderbook.micro_price`.  `Level` is a named tuple with two fields, so a
level object is always truthy in Python; the guard `if best_bid and best_ask`
therefore succeeds exactly when both sides are non-empty, regardless of the
quantities.  Python's `/` raises `ZeroDivisionError` exactly when the
denominator `best_ask.quantity + best_bid.quantity` is zero; otherwise the
float division is modelled as exact rational division.  `Except.ok none`
models the Python `return None` path. -/
def Orderbook.micro_price (b : Orderbook) : Except String (Option ℚ) :=
  match b.bba with
  | (some best_bid, some best_ask) =>
    if best_ask.quantity + best_bid.quantity = 0 then
      .error "ZeroDivisionError"
    else
      .ok (some
        ((best_ask.price * best_bid.quantity : ℚ) / ((best_ask.quantity : ℚ) + best_bid.quantity)
          + (best_bid.price * best_ask.quantity : ℚ) / ((best_ask.quantity : ℚ) + best_bid.quantity)))
  | _ => .ok none

/-- `KalshiStatus.status` from `kalshi/models/status.py`: the derived exchange
status string from the pair `(exchange_active, trading_active)`. -/
def KalshiStatus.status (exchange_active trading_active : Bool) : String :=
  match exchange_active, trading_active with
  | true, true => "ACTIVE_TRADING_ENABLED"
  | true, false => "ACTIVE_TRADING_DISABLED"
  | false, true => "INVALID_STATE"
  | false, false => "INACTIVE_TRADING_DISABLED"

/-- The `Lifecycle` dataclass from `kalshi/models/lifecycle.py`. -/
structure Lifecycle where
  is_deactivated : Bool
  open_ts : Int
  close_ts : Int
  determination_ts : Option Int
  settled_ts : Option Int
  result : Option String
deriving DecidableEq, Repr

/-- A `market_lifecycle` message as read by the lifecycle handler: each field
is `none` when the key is absent from the message dict (so `data.get(key,
fallback)` returns the fallback).  For `determination_ts`, `settled_ts` and
`result` the payload value may itself be `null`, hence the nested options. -/
structure LifecycleData where
  is_deactivated : Option Bool
  open_ts : Option Int
  close_ts : Option Int
  determination_ts : Option (Option Int)
  settled_ts : Option (Option Int)
  result : Option (Option String)
deriving DecidableEq, Repr

/-- `KalshiLifecycleHandler.process`: rebuild the lifecycle record, taking each
field from the message when the key is present and falling back to the prior
value otherwise (`data.get(key, self.lifecycle.field)`). -/
def KalshiLifecycleHandler.process (data : LifecycleData) (lifecycle : Lifecycle) : Lifecycle :=
  { is_deactivated := data.is_deactivated.getD lifecycle.is_deactivated
    open_ts := data.open_ts.getD lifecycle.open_ts
    close_ts := data.close_ts.getD lifecycle.close_ts
    determination_ts := data.determination_ts.getD lifecycle.determination_ts
    settled_ts := data.settled_ts.getD lifecycle.settled_ts
    result := data.result.getD lifecycle.result }

/-- Modelled from the spec: the sequence-aware order book expected by
`KalshiOrderbookHandler.process`, which calls `refresh(side, snapshot, seq)`
and `update(book, delta, seq)` with a third `seq` argument.  No `Orderbook`
under `src/` accepts this argument or stores `last_seq`; the spec's Book
Engine (§4.6) defines the missing state: a book with a `last_seq` integer and
a `desynced` flag. -/
structure SeqOrderbook where
  book : Orderbook
  last_seq : Int
  desynced : Bool
deriving DecidableEq, Repr

/-- Modelled from the spec: the seq-aware snapshot application missing from
`src/` (§4.6): replace the addressed side (via the source `Orderbook.refresh`)
and set `last_seq ← seq` unconditionally; the book is in sync again after a
snapshot. -/
def SeqOrderbook.refreshSeq (st : SeqOrderbook) (side : String) (snapshot : List Level)
    (seq : Int) : SeqOrderbook :=
  { book := st.book.refresh side snapshot, last_seq := seq, desynced := false }

/-- Modelled from the spec: the seq-aware delta application missing from
`src/` (§4.6): a delta with `seq ≤ last_seq` is stale and dropped; one with
`seq > last_seq + 1` is a gap, which marks the book desynced and leaves it
otherwise unchanged; otherwise the delta is applied via the source
`Orderbook.update` and `last_seq ← seq`. -/
def SeqOrderbook.updateSeq (st : SeqOrderbook) (s : BookSide) (d : Delta)
    (seq : Int) : SeqOrderbook :=
  if seq ≤ st.last_seq then st
  else if st.last_seq + 1 < seq then { st with desynced := true }
  else { st with book := st.book.update s d, last_seq := seq }

/-- An inbound message as read by `KalshiOrderbookHandler.process`: `type` and
`seq` are read with `data.get` from the envelope (`none` models an absent
key); the remaining fields live in the `msg` payload, of which only those
matching the message type are read. -/
structure BookData where
  type : Option String
  seq : Option Int
  yes : List (Int × Int)
  no : List (Int × Int)
  side : String
  price : Int
  delta : Int

/-- `KalshiOrderbookHandler.process` from `kalshi/ws/handlers/orderbooks.py`:
missing `type` or `seq` raises (modelled as `Except.error` carrying the
`ValueError` message); a snapshot refreshes bids with the `yes` levels and
asks with the `(100 - p, q)` translation of the `no` levels; a delta updates
the bids for side `"yes"` and the asks at price `100 - p` for side `"no"`.
Any other message type or side falls through the `match` with no action. -/
def KalshiOrderbookHandler.process (data : BookData) (st : SeqOrderbook) :
    Except String SeqOrderbook :=
  match data.type with
  | none => .error "Failed to get update type in data message"
  | some update_type =>
    match data.seq with
    | none => .error "Sequence number is missing in the orderbook data message"
    | some seq =>
      if update_type = "orderbook_snapshot" then
        let bids := data.yes.map (fun l => Level.mk l.1 l.2)
        let asks := data.no.map (fun l => Level.mk (100 - l.1) l.2)
        .ok ((st.refreshSeq "bids" bids seq).refreshSeq "asks" asks seq)
      else if update_type = "orderbook_delta" then
        if data.side = "yes" then
          .ok (st.updateSeq .bids (Delta.mk data.price data.delta) seq)
        else if data.side = "no" then
          .ok (st.updateSeq .asks (Delta.mk (100 - data.price) data.delta) seq)
        else .ok st
      else .ok st

/-- The handler's externally observable effect: on success the stored book is
replaced; a raised exception propagates before any mutation, so the stored
book is kept and the error message surfaces. -/
def KalshiOrderbookHandler.processKeep (data : BookData) (st : SeqOrderbook) :
    SeqOrderbook × Option String :=
  match KalshiOrderbookHandler.process data st with
  | .ok st2 => (st2, none)
  | .error e => (st, some e)

/-- The `Subscription` named tuple from `kalshi/ws/subscription.py`.
Timestamps are abstract instants (the embedding passes `time.time()` readings
in as parameters). -/
structure Subscription where
  channels : List String
  tickers : List String
  created_ts : Int
  updated_ts : Int
  active : Bool
deriving DecidableEq, Repr

/-- An outbound `subscribe` frame as built by `add_subscription`:
`{"id": N, "cmd": "subscribe", "params": {"channels": [...]}}`, with
`market_tickers` present exactly when not subscribing to all markets. -/
structure SubscribeMsg where
  id : Int
  channels : List String
  market_tickers : Option (List String)
deriving DecidableEq, Repr

/-- The subscription-related state of `KalshiWsClient`: the `subscriptions`
dict (an insertion-ordered association list, as a Python dict), the
`pending_unsubscriptions` set, the id counter, and `state.tickers`. -/
structure ClientState where
  subscriptions : List (Int × Subscription)
  pending_unsubscriptions : List Int
  id_counter : Int
  tickers : List String
deriving DecidableEq, Repr

/-- Python dict assignment `d[k] = v` on an insertion-ordered association
list: replace in place when the key exists, append otherwise. -/
def setAssoc (k : Int) (v : Subscription) : List (Int × Subscription) → List (Int × Subscription)
  | [] => [(k, v)]
  | (k2, v2) :: rest => if k = k2 then (k, v) :: rest else (k2, v2) :: setAssoc k v rest

/-- Python dict lookup `k in d` / `d[k]` on the association list. -/
def lookupAssoc (k : Int) : List (Int × Subscription) → Option Subscription
  | [] => none
  | (k2, v2) :: rest => if k = k2 then some v2 else lookupAssoc k rest

/-- `KalshiWsClient.add_subscription`: allocate the next id from the counter,
build the subscription (tickers from `state.tickers`, or the `all_markets`
sentinel), send a subscribe frame carrying the channels (plus
`market_tickers` when not in all-markets mode), and store the subscription
marked active.  Returns the new state and the outbound frame. -/
def KalshiWsClient.add_subscription (st : ClientState) (channels : List String)
    (all_markets : Bool) (now : Int) : ClientState × SubscribeMsg :=
  let subscription_id := st.id_counter + 1
  let sub : Subscription :=
    { channels := channels
      tickers := if all_markets then ["all_markets"] else st.tickers
      created_ts := now
      updated_ts := now
      active := true }
  let msg : SubscribeMsg :=
    { id := subscription_id
      channels := channels
      market_tickers := if all_markets then none else some st.tickers }
  ({ st with
      id_counter := subscription_id
      subscriptions := setAssoc subscription_id sub st.subscriptions }, msg)

/-- `KalshiWsClient._handle_forced_unsubscription_`: when the id is tracked
and not pending, re-subscribe with the subscription's channels (allocating a
fresh id; the old entry is left in the map); when the id is pending, remove
it from `pending_unsubscriptions` and send nothing; otherwise do nothing.
Returns the new state and the outbound subscribe frame, if any. -/
def KalshiWsClient.handle_forced_unsubscription (st : ClientState) (subscription_id : Int)
    (now : Int) : ClientState × Option SubscribeMsg :=
  match lookupAssoc subscription_id st.subscriptions with
  | some sub =>
    if subscription_id ∈ st.pending_unsubscriptions then
      ({ st with pending_unsubscriptions := st.pending_unsubscriptions.erase subscription_id },
        none)
    else
      let res := KalshiWsClient.add_subscription st sub.channels false now
      (res.1, some res.2)
  | none =>
    if subscription_id ∈ st.pending_unsubscriptions then
      ({ st with pending_unsubscriptions := st.pending_unsubscriptions.erase subscription_id },
        none)
    else (st, none)

/-- Error class of the spec's Book Engine (§7). -/
inductive BookError where
  | protocolError
deriving DecidableEq, Repr

/-- Follows the spec's words (§4.6, delta application) for refinement
comparison with the source `Orderbook.update`: locate the existing level by
price; new quantity = existing + delta, updating in place when positive and
removing the level otherwise; when no level matches, insert for a positive
delta and signal `ProtocolError` for a non-positive one. -/
def updateSideSpec (d : Delta) (l : List Level) : Except BookError (List Level) :=
  match l.find? (fun x => x.price == d.price) with
  | some x =>
    if 0 < x.quantity + d.delta then
      .ok (l.map (fun y => if y.price == d.price then Level.mk y.price (x.quantity + d.delta) else y))
    else
      .ok (l.filter (fun y => y.price != d.price))
  | none =>
    if 0 < d.delta then .ok (l ++ [Level.mk d.price d.delta])
    else .error .protocolError

/-- The (non-strict) sort order `Orderbook.sort` uses on a given side. -/
def sideRel : BookSide → Level → Level → Prop
  | .bids => bidR
  | .asks => askR

/-- Strict per-side order: pairwise `sideStrict s` says the side is sorted in
its direction with unique prices. -/
def sideStrict : BookSide → Level → Level → Prop
  | .bids => bidS
  | .asks => askS

instance : (s : BookSide) → DecidableRel (sideRel s)
  | .bids => inferInstanceAs (DecidableRel bidR)
  | .asks => inferInstanceAs (DecidableRel askR)

instance : (s : BookSide) → DecidableRel (sideStrict s)
  | .bids => inferInstanceAs (DecidableRel bidS)
  | .asks => inferInstanceAs (DecidableRel askS)

instance : (s : BookSide) → IsTotal Level (sideRel s)
  | .bids => inferInstanceAs (IsTotal Level bidR)
  | .asks => inferInstanceAs (IsTotal Level askR)

instance : (s : BookSide) → IsTrans Level (sideRel s)
  | .bids => inferInstanceAs (IsTrans Level bidR)
  | .asks => inferInstanceAs (IsTrans Level askR)

instance : (s : BookSide) → IsAntisymm Level (sideStrict s)
  | .bids => inferInstanceAs (IsAntisymm Level bidS)
  | .asks => inferInstanceAs (IsAntisymm Level askS)

theorem sideStrict_le {s : BookSide} {x y : Level} (h : sideStrict s x y) : sideRel s x y := by
  cases s <;> exact le_of_lt h

theorem sideStrict_ne {s : BookSide} {x y : Level} (h : sideStrict s x y) : x.price ≠ y.price := by
  cases s
  · exact Ne.symm (ne_of_lt h)
  · exact ne_of_lt h

theorem sideStrict_of_le_ne {s : BookSide} {x y : Level} (hle : sideRel s x y)
    (hne : x.price ≠ y.price) : sideStrict s x y := by
  cases s
  · exact lt_of_le_of_ne hle (fun he => hne he.symm)
  · exact lt_of_le_of_ne hle hne

theorem sorted_of_pairwise_strict {s : BookSide} {l : List Level}
    (h : List.Pairwise (sideStrict s) l) : List.Sorted (sideRel s) l :=
  h.imp sideStrict_le

/-- The quantity at a level does not matter to the per-side strict order:
replacing the quantity at one position preserves it. -/
theorem pairwise_strict_replace {s : BookSide} {l1 l2 : List Level} {p q q2 : Int}
    (h : List.Pairwise (sideStrict s) (l1 ++ Level.mk p q :: l2)) :
    List.Pairwise (sideStrict s) (l1 ++ Level.mk p q2 :: l2) := by
  rw [List.pairwise_append, List.pairwise_cons] at h ⊢
  obtain ⟨h1, ⟨h2, h3⟩, h4⟩ := h
  refine ⟨h1, ⟨fun b hb => ?_, h3⟩, fun a ha b hb => ?_⟩
  · have := h2 b hb
    cases s <;> exact this
  · rcases List.mem_cons.mp hb with rfl | hb
    · have := h4 a ha (Level.mk p q) (List.mem_cons_self _ _)
      cases s <;> exact this
    · exact h4 a ha b (List.mem_cons_of_mem _ hb)

theorem pairwise_strict_drop {s : BookSide} {l1 l2 : List Level} {x : Level}
    (h : List.Pairwise (sideStrict s) (l1 ++ x :: l2)) :
    List.Pairwise (sideStrict s) (l1 ++ l2) :=
  h.sublist ((List.sublist_cons_self x l2).append_left l1)

/-- In a side with pairwise-strict order, every level strictly before/after the
occurrence of a level at price `p` has a different price. -/
theorem pairwise_strict_front_ne {s : BookSide} {l1 l2 : List Level} {p q : Int}
    (h : List.Pairwise (sideStrict s) (l1 ++ Level.mk p q :: l2)) :
    ∀ x ∈ l1, x.price ≠ p := by
  rw [List.pairwise_append] at h
  intro x hx
  exact sideStrict_ne (h.2.2 x hx (Level.mk p q) (List.mem_cons_self _ _))

/-- `updateSide` on a side whose prefix does not contain the delta's price and
whose next level matches it: the matched level is updated in place when the new
quantity is positive and popped otherwise. -/
theorem updateSide_matched {p d : Int} (q : Int) (l1 l2 : List Level)
    (hfront : ∀ x ∈ l1, x.price ≠ p) :
    updateSide (Delta.mk p d) (l1 ++ Level.mk p q :: l2)
      = if 0 < q + d then l1 ++ Level.mk p (q + d) :: l2 else l1 ++ l2 := by
  induction l1 with
  | nil => simp [updateSide]
  | cons a l1 ih =>
    have ha : p ≠ a.price := fun he => hfront a (List.mem_cons_self _ _) he.symm
    have ih2 := ih (fun x hx => hfront x (List.mem_cons_of_mem _ hx))
    by_cases hq : 0 < q + d <;> simp [updateSide, if_neg ha, ih2, hq]

/-- `updateSide` on a side containing no level at the delta's price: appends a
new level exactly when the delta is positive. -/
theorem updateSide_unmatched {p d : Int} (l : List Level)
    (hnone : ∀ x ∈ l, x.price ≠ p) :
    updateSide (Delta.mk p d) l = if 0 < d then l ++ [Level.mk p d] else l := by
  induction l with
  | nil => by_cases hd : 0 < d <;> simp [updateSide, hd]
  | cons a l ih =>
    have ha : p ≠ a.price := fun he => hnone a (List.mem_cons_self _ _) he.symm
    have ih2 := ih (fun x hx => hnone x (List.mem_cons_of_mem _ hx))
    by_cases hd : 0 < d <;> simp [updateSide, if_neg ha, ih2, hd]

theorem side_update (b : Orderbook) (s : BookSide) (d : Delta) :
    (b.update s d).side s = List.insertionSort (sideRel s) (updateSide d (b.side s)) := by
  cases s <;> rfl

/-- Sorting a book whose two sides are already sorted is the identity. -/
theorem Orderbook.sort_eq_self {b : Orderbook} (hb : List.Sorted bidR b.bids)
    (ha : List.Sorted askR b.asks) : b.sort = b := by
  cases b
  simp [Orderbook.sort, hb.insertionSort_eq, ha.insertionSort_eq]

/-- C9: the derived exchange status equals ACTIVE_TRADING_ENABLED for
`(exchange_active, trading_active) = (true, true)`, ACTIVE_TRADING_DISABLED
for `(true, false)`, INACTIVE_TRADING_DISABLED for `(false, false)`, and
INVALID_STATE for `(false, true)` — all four boolean pairs. -/
theorem kalshiStatus_mapping :
    KalshiStatus.status true true = "ACTIVE_TRADING_ENABLED"
    ∧ KalshiStatus.status true false = "ACTIVE_TRADING_DISABLED"
    ∧ KalshiStatus.status false false = "INACTIVE_TRADING_DISABLED"
    ∧ KalshiStatus.status false true = "INVALID_STATE" :=
  ⟨rfl, rfl, rfl, rfl⟩

/-- C10: `Orderbook.empty` holds the `(0, 0)` sentinel level on each side, and
on any book whose best-bid and best-ask quantities are both `0` — the empty
book included — `micro_price` divides by `best_ask.quantity +
best_bid.quantity = 0` and fails with a `ZeroDivisionError` instead of
returning `None`: the best-bid/best-ask guard only checks that levels are
present, not that their quantities are positive. -/
theorem micro_price_zero_quantity_fails :
    Orderbook.empty.bids = [Level.mk 0 0] ∧ Orderbook.empty.asks = [Level.mk 0 0]
    ∧ ∀ (b : Orderbook) (bb ba : Level), b.bba = (some bb, some ba) →
        bb.quantity = 0 → ba.quantity = 0 →
        b.micro_price = Except.error "ZeroDivisionError" := by
  refine ⟨rfl, rfl, fun b bb ba hbba hbq haq => ?_⟩
  rw [Orderbook.micro_price, hbba]
  simp [haq, hbq]

/-- Witness for C10 at the empty book. -/
theorem micro_price_zero_quantity_fails_witness :
    Orderbook.empty.micro_price = Except.error "ZeroDivisionError" :=
  micro_price_zero_quantity_fails.2.2 Orderbook.empty (Level.mk 0 0) (Level.mk 0 0) rfl rfl rfl

/-- C7: an `orderbook_snapshot` or `orderbook_delta` message without a `seq`
field makes the orderbook handler raise (the `ValueError` message surfaces)
and leaves the stored book unchanged. -/
theorem orderbook_missing_seq_error (data : BookData) (st : SeqOrderbook)
    (htype : data.type = some "orderbook_snapshot" ∨ data.type = some "orderbook_delta")
    (hseq : data.seq = none) :
    KalshiOrderbookHandler.processKeep data st
      = (st, some "Sequence number is missing in the orderbook data message") := by
  rcases htype with h | h <;>
    simp [KalshiOrderbookHandler.processKeep, KalshiOrderbookHandler.process, h, hseq]

/-- Witness for C7 at a concrete seq-less delta message. -/
theorem orderbook_missing_seq_error_witness :
    KalshiOrderbookHandler.processKeep
        (BookData.mk (some "orderbook_delta") none [] [] "yes" 40 1)
        (SeqOrderbook.mk Orderbook.empty 0 false)
      = (SeqOrderbook.mk Orderbook.empty 0 false,
         some "Sequence number is missing in the orderbook data message") :=
  orderbook_missing_seq_error _ _ (Or.inr rfl) rfl

/-- Counterexample to C6: from the terminal record `is_deactivated = true,
result = "yes"`, the message `{"is_deactivated": false, "result": null}` is
accepted and regresses both fields to non-terminal values; the handler
rejects nothing. -/
theorem lifecycle_regression_counterexample :
    KalshiLifecycleHandler.process
        (LifecycleData.mk (some false) none none none none (some none))
        (Lifecycle.mk true 1 2 (some 3) (some 4) (some "yes"))
      = Lifecycle.mk false 1 2 (some 3) (some 4) none := rfl

/-- C6 as amended: the lifecycle handler performs a per-field last-value
overwrite — a field keeps its prior value only when the key is absent from
the message.  It does not reject regressions from a terminal state: once
`result` is set, a message lacking `result` preserves it, but any message
carrying `result` or `is_deactivated` overwrites them, terminal or not. -/
theorem lifecycle_no_terminal_guard (st : Lifecycle) (d : LifecycleData) (r : String)
    (hterm : st.result = some r) :
    (d.result = none → (KalshiLifecycleHandler.process d st).result = some r)
    ∧ (∀ v, d.result = some v → (KalshiLifecycleHandler.process d st).result = v)
    ∧ (∀ bv, d.is_deactivated = some bv →
        (KalshiLifecycleHandler.process d st).is_deactivated = bv) := by
  refine ⟨fun h => ?_, fun v h => ?_, fun bv h => ?_⟩ <;>
    simp [KalshiLifecycleHandler.process, h, hterm]

/-- Witness for C6's amended theorem: a terminal record regressed by a
message that clears `result` and reactivates the market. -/
theorem lifecycle_no_terminal_guard_witness :
    (KalshiLifecycleHandler.process
        (LifecycleData.mk (some false) none none none none (some none))
        (Lifecycle.mk true 1 2 (some 3) (some 4) (some "yes"))).result = none
    ∧ (KalshiLifecycleHandler.process
        (LifecycleData.mk (some false) none none none none (some none))
        (Lifecycle.mk true 1 2 (some 3) (some 4) (some "yes"))).is_deactivated = false :=
  ⟨(lifecycle_no_terminal_guard (Lifecycle.mk true 1 2 (some 3) (some 4) (some "yes"))
      (LifecycleData.mk (some false) none none none none (some none)) "yes" rfl).2.1
      none rfl,
   (lifecycle_no_terminal_guard (Lifecycle.mk true 1 2 (some 3) (some 4) (some "yes"))
      (LifecycleData.mk (some false) none none none none (some none)) "yes" rfl).2.2
      false rfl⟩

theorem updateSeq_stale (st : SeqOrderbook) (s : BookSide) (d : Delta) (seq : Int)
    (h : seq ≤ st.last_seq) : st.updateSeq s d seq = st := by
  simp [SeqOrderbook.updateSeq, h]

theorem updateSeq_last_seq_mono (st : SeqOrderbook) (s : BookSide) (d : Delta) (seq : Int) :
    st.last_seq ≤ (st.updateSeq s d seq).last_seq := by
  unfold SeqOrderbook.updateSeq
  by_cases h1 : seq ≤ st.last_seq
  · simp [h1]
  · by_cases h2 : st.last_seq + 1 < seq
    · simp [h1, h2]
    · simp only [if_neg h1, if_neg h2]
      exact le_of_lt (lt_of_not_le h1)

/-- Counterexample to C1: a snapshot sets `last_seq ← seq` unconditionally
(spec §4.6), so a snapshot with `seq = 5` applied after `last_seq = 10` is
successfully applied yet decreases `last_seq` from `10` to `5`. -/
theorem last_seq_snapshot_counterexample :
    KalshiOrderbookHandler.process
        (BookData.mk (some "orderbook_snapshot") (some 5) [(40, 5)] [(55, 2)] "" 0 0)
        (SeqOrderbook.mk Orderbook.empty 10 false)
      = Except.ok (SeqOrderbook.mk (Orderbook.mk [Level.mk 40 5] [Level.mk 45 2]) 5 false)
    ∧ (5 : Int) < 10 := by
  exact ⟨rfl, by decide⟩

/-- C1 as amended: for every delta message whose `seq` satisfies
`seq ≤ last_seq`, processing drops the stale delta, leaving the whole book
state (both sides and `last_seq`) unchanged, and `last_seq` never decreases
across processed deltas.  Snapshots are excluded from the monotonicity: a
snapshot sets `last_seq` to its own `seq` unconditionally, which may be
lower. -/
theorem last_seq_delta_discipline (data : BookData) (st st2 : SeqOrderbook)
    (htype : data.type = some "orderbook_delta")
    (hok : KalshiOrderbookHandler.process data st = Except.ok st2) :
    (∀ n, data.seq = some n → n ≤ st.last_seq → st2 = st) ∧ st.last_seq ≤ st2.last_seq := by
  have hne : ("orderbook_delta" : String) ≠ "orderbook_snapshot" := by decide
  rcases hs : data.seq with _ | n
  · simp [KalshiOrderbookHandler.process, htype, hs] at hok
  · simp only [KalshiOrderbookHandler.process, htype, hs, if_neg hne, if_pos rfl] at hok
    by_cases hy : data.side = "yes"
    · rw [if_pos hy] at hok
      replace hok := (Except.ok.injEq _ _ ▸ hok :
        st.updateSeq .bids (Delta.mk data.price data.delta) n = st2)
      constructor
      · intro m hm hstale
        have hmn : m = n := (Option.some_inj.mp hm).symm
        rw [← hok, updateSeq_stale st _ _ n (hmn ▸ hstale)]
      · rw [← hok]; exact updateSeq_last_seq_mono st _ _ n
    · rw [if_neg hy] at hok
      by_cases hn : data.side = "no"
      · rw [if_pos hn] at hok
        replace hok := (Except.ok.injEq _ _ ▸ hok :
          st.updateSeq .asks (Delta.mk (100 - data.price) data.delta) n = st2)
        constructor
        · intro m hm hstale
          have hmn : m = n := (Option.some_inj.mp hm).symm
          rw [← hok, updateSeq_stale st _ _ n (hmn ▸ hstale)]
        · rw [← hok]; exact updateSeq_last_seq_mono st _ _ n
      · rw [if_neg hn] at hok
        replace hok := (Except.ok.injEq _ _ ▸ hok : st = st2)
        exact ⟨fun _ _ _ => hok.symm, hok ▸ le_refl _⟩

/-- Witness for C1's amended theorem: a stale delta (`seq = 9` against
`last_seq = 10`) is dropped and the state is returned unchanged. -/
theorem last_seq_delta_discipline_witness :
    (KalshiOrderbookHandler.process
        (BookData.mk (some "orderbook_delta") (some 9) [] [] "yes" 40 1)
        (SeqOrderbook.mk (Orderbook.mk [Level.mk 40 5] [Level.mk 45 2]) 10 false)
      = Except.ok (SeqOrderbook.mk (Orderbook.mk [Level.mk 40 5] [Level.mk 45 2]) 10 false))
    ∧ SeqOrderbook.mk (Orderbook.mk [Level.mk 40 5] [Level.mk 45 2]) 10 false
        = SeqOrderbook.mk (Orderbook.mk [Level.mk 40 5] [Level.mk 45 2]) 10 false
    ∧ (10 : Int) ≤ 10 := by
  refine ⟨rfl, ?_, ?_⟩
  · exact (last_seq_delta_discipline
      (BookData.mk (some "orderbook_delta") (some 9) [] [] "yes" 40 1)
      (SeqOrderbook.mk (Orderbook.mk [Level.mk 40 5] [Level.mk 45 2]) 10 false)
      (SeqOrderbook.mk (Orderbook.mk [Level.mk 40 5] [Level.mk 45 2]) 10 false)
      rfl rfl).1 9 rfl (by decide)
  · exact (last_seq_delta_discipline
      (BookData.mk (some "orderbook_delta") (some 9) [] [] "yes" 40 1)
      (SeqOrderbook.mk (Orderbook.mk [Level.mk 40 5] [Level.mk 45 2]) 10 false)
      (SeqOrderbook.mk (Orderbook.mk [Level.mk 40 5] [Level.mk 45 2]) 10 false)
      rfl rfl).2

theorem refresh_bids (b : Orderbook) (snap : List Level) :
    b.refresh "bids" snap = Orderbook.mk (snap.insertionSort bidR) (b.asks.insertionSort askR) :=
  rfl

theorem refresh_asks (b : Orderbook) (snap : List Level) :
    b.refresh "asks" snap = Orderbook.mk (b.bids.insertionSort bidR) (snap.insertionSort askR) :=
  rfl

/-- C3: applying an `orderbook_snapshot` with fields `seq`, `yes`, `no` to any
existing book replaces the bids with the `yes` levels sorted by descending
price and the asks with the `(100 - p, q)` translation of the `no` levels
sorted by ascending price, preserving every quantity (the sides are
permutations of the translated snapshot); `last_seq` becomes `seq`.  With
zero deltas after it, this translated book is exactly the resulting state. -/
theorem snapshot_refresh_translation (data : BookData) (st : SeqOrderbook) (n : Int)
    (htype : data.type = some "orderbook_snapshot") (hseq : data.seq = some n) :
    ∃ st2, KalshiOrderbookHandler.process data st = Except.ok st2
      ∧ st2.book.bids.Perm (data.yes.map (fun l => Level.mk l.1 l.2))
      ∧ List.Sorted bidR st2.book.bids
      ∧ st2.book.asks.Perm (data.no.map (fun l => Level.mk (100 - l.1) l.2))
      ∧ List.Sorted askR st2.book.asks
      ∧ st2.last_seq = n := by
  refine ⟨(st.refreshSeq "bids" (data.yes.map (fun l => Level.mk l.1 l.2)) n).refreshSeq
      "asks" (data.no.map (fun l => Level.mk (100 - l.1) l.2)) n, ?_, ?_, ?_, ?_, ?_, rfl⟩
  · simp [KalshiOrderbookHandler.process, htype, hseq]
  · show ((st.book.refresh "bids" _).refresh "asks" _).bids.Perm _
    rw [refresh_bids, refresh_asks]
    exact (List.perm_insertionSort _ _).trans (List.perm_insertionSort _ _)
  · show List.Sorted bidR ((st.book.refresh "bids" _).refresh "asks" _).bids
    rw [refresh_bids, refresh_asks]
    exact List.sorted_insertionSort bidR _
  · show ((st.book.refresh "bids" _).refresh "asks" _).asks.Perm _
    rw [refresh_bids, refresh_asks]
    exact List.perm_insertionSort _ _
  · show List.Sorted askR ((st.book.refresh "bids" _).refresh "asks" _).asks
    rw [refresh_bids, refresh_asks]
    exact List.sorted_insertionSort askR _

/-- Witness for C3 at the spec's snapshot scenario: `seq 10`,
`yes = [[40,5],[41,3]]`, `no = [[55,2],[56,4]]`. -/
theorem snapshot_refresh_translation_witness :
    ∃ st2, KalshiOrderbookHandler.process
        (BookData.mk (some "orderbook_snapshot") (some 10)
          [(40, 5), (41, 3)] [(55, 2), (56, 4)] "" 0 0)
        (SeqOrderbook.mk Orderbook.empty 0 false) = Except.ok st2
      ∧ st2.book.bids.Perm ([((40 : Int), (5 : Int)), (41, 3)].map (fun l => Level.mk l.1 l.2))
      ∧ List.Sorted bidR st2.book.bids
      ∧ st2.book.asks.Perm ([((55 : Int), (2 : Int)), (56, 4)].map
          (fun l => Level.mk (100 - l.1) l.2))
      ∧ List.Sorted askR st2.book.asks
      ∧ st2.last_seq = 10 :=
  snapshot_refresh_translation
    (BookData.mk (some "orderbook_snapshot") (some 10)
      [(40, 5), (41, 3)] [(55, 2), (56, 4)] "" 0 0)
    (SeqOrderbook.mk Orderbook.empty 0 false) 10 rfl rfl

/-- Core behaviour of `Orderbook.update` when the addressed side holds a level
at the delta's price: in-place quantity update when positive, removal
otherwise, everything else untouched, pairwise-strict order preserved. -/
theorem update_matched_side (b : Orderbook) (s : BookSide) (p q d : Int) (l1 l2 : List Level)
    (hside : b.side s = l1 ++ Level.mk p q :: l2)
    (hsorted : List.Pairwise (sideStrict s) (b.side s)) :
    (b.update s (Delta.mk p d)).side s
        = (if 0 < q + d then l1 ++ Level.mk p (q + d) :: l2 else l1 ++ l2)
      ∧ List.Pairwise (sideStrict s) ((b.update s (Delta.mk p d)).side s) := by
  have hsplit : List.Pairwise (sideStrict s) (l1 ++ Level.mk p q :: l2) := hside ▸ hsorted
  have hfront : ∀ x ∈ l1, x.price ≠ p := pairwise_strict_front_ne hsplit
  have hup : updateSide (Delta.mk p d) (b.side s)
      = if 0 < q + d then l1 ++ Level.mk p (q + d) :: l2 else l1 ++ l2 := by
    rw [hside]; exact updateSide_matched q l1 l2 hfront
  have hpair : List.Pairwise (sideStrict s)
      (if 0 < q + d then l1 ++ Level.mk p (q + d) :: l2 else l1 ++ l2) := by
    by_cases hq : 0 < q + d
    · rw [if_pos hq]; exact pairwise_strict_replace hsplit
    · rw [if_neg hq]; exact pairwise_strict_drop hsplit
  have heq : (b.update s (Delta.mk p d)).side s
      = if 0 < q + d then l1 ++ Level.mk p (q + d) :: l2 else l1 ++ l2 := by
    rw [side_update, hup, (sorted_of_pairwise_strict hpair).insertionSort_eq]
  exact ⟨heq, heq ▸ hpair⟩

/-- C4: a delta at a price present on a side with quantity `q` updates the
level in place to `q + delta` when `q + delta > 0` and removes it when
`q + delta ≤ 0` (zero included); all other levels are untouched and the side
stays sorted in its direction with unique prices. -/
theorem orderbook_update_existing_level (b : Orderbook) (s : BookSide) (p q d : Int)
    (l1 l2 : List Level)
    (hside : b.side s = l1 ++ Level.mk p q :: l2)
    (hsorted : List.Pairwise (sideStrict s) (b.side s)) :
    (b.update s (Delta.mk p d)).side s
        = (if 0 < q + d then l1 ++ Level.mk p (q + d) :: l2 else l1 ++ l2)
      ∧ List.Pairwise (sideStrict s) ((b.update s (Delta.mk p d)).side s) :=
  update_matched_side b s p q d l1 l2 hside hsorted

/-- Witness for C4: removing the bid level `(40, 5)` with a `-5` delta
(quantity hits exactly zero) from a two-level bid side. -/
theorem orderbook_update_existing_level_witness :
    ((Orderbook.mk [Level.mk 41 3, Level.mk 40 5] [Level.mk 45 2]).update .bids
        (Delta.mk 40 (-5))).side .bids
      = (if 0 < (5 : Int) + (-5) then [Level.mk 41 3] ++ Level.mk 40 (5 + (-5)) :: []
         else [Level.mk 41 3] ++ [])
    ∧ List.Pairwise (sideStrict .bids)
        (((Orderbook.mk [Level.mk 41 3, Level.mk 40 5] [Level.mk 45 2]).update .bids
          (Delta.mk 40 (-5))).side .bids) :=
  orderbook_update_existing_level
    (Orderbook.mk [Level.mk 41 3, Level.mk 40 5] [Level.mk 45 2]) .bids 40 5 (-5)
    [Level.mk 41 3] [] rfl (by decide)

/-- Sorting a pairwise-strict side with one new level of fresh price appended
is again pairwise-strict. -/
theorem insort_append_strict {s : BookSide} {l : List Level} {x : Level}
    (hstrict : List.Pairwise (sideStrict s) l) (hnone : ∀ y ∈ l, y.price ≠ x.price) :
    List.Pairwise (sideStrict s) (List.insertionSort (sideRel s) (l ++ [x])) := by
  have hperm : (List.insertionSort (sideRel s) (l ++ [x])).Perm (l ++ [x]) :=
    List.perm_insertionSort _ _
  have hne : List.Pairwise (fun a b : Level => a.price ≠ b.price) (l ++ [x]) := by
    rw [List.pairwise_append]
    refine ⟨hstrict.imp sideStrict_ne, List.pairwise_singleton _ _, fun a ha b hb => ?_⟩
    rw [List.mem_singleton] at hb
    subst hb
    exact hnone a ha
  have hne2 : List.Pairwise (fun a b : Level => a.price ≠ b.price)
      (List.insertionSort (sideRel s) (l ++ [x])) :=
    (List.Perm.pairwise_iff (fun h => Ne.symm h) hperm).mpr hne
  have hsorted2 : List.Sorted (sideRel s) (List.insertionSort (sideRel s) (l ++ [x])) :=
    List.sorted_insertionSort _ _
  exact (hsorted2.and hne2).imp (fun h => sideStrict_of_le_ne h.1 h.2)

/-- Counterexample to C5: a delta at an absent price with non-positive delta
raises `ProtocolError` under the spec's words (`updateSideSpec`), but the
source `Orderbook.update` signals nothing — it is total and silently returns
the book unchanged. -/
theorem missing_level_protocol_counterexample :
    updateSideSpec (Delta.mk 40 (-3)) [Level.mk 50 5] = Except.error BookError.protocolError
    ∧ (Orderbook.mk [Level.mk 50 5] [Level.mk 60 2]).update .bids (Delta.mk 40 (-3))
        = Orderbook.mk [Level.mk 50 5] [Level.mk 60 2] :=
  ⟨rfl, rfl⟩

/-- C5 as amended: a delta targeting a price absent from the addressed side
inserts the new level `(p, delta)` when `delta > 0`; when `delta ≤ 0` the
delta is silently ignored and the book is left unchanged — no `ProtocolError`
(or any error) is signalled, `Orderbook.update` has no error path. -/
theorem orderbook_update_missing_level (b : Orderbook) (s : BookSide) (p d : Int)
    (hnone : ∀ x ∈ b.side s, x.price ≠ p)
    (hbids : List.Pairwise bidS b.bids)
    (hasks : List.Pairwise askS b.asks) :
    (0 < d →
      ((b.update s (Delta.mk p d)).side s).Perm (b.side s ++ [Level.mk p d])
        ∧ List.Pairwise (sideStrict s) ((b.update s (Delta.mk p d)).side s))
    ∧ (d ≤ 0 → b.update s (Delta.mk p d) = b) := by
  have hstrict : List.Pairwise (sideStrict s) (b.side s) := by
    cases s
    · exact hbids
    · exact hasks
  constructor
  · intro hd
    have hup : updateSide (Delta.mk p d) (b.side s) = b.side s ++ [Level.mk p d] := by
      rw [updateSide_unmatched _ hnone, if_pos hd]
    refine ⟨?_, ?_⟩
    · rw [side_update, hup]
      exact List.perm_insertionSort _ _
    · rw [side_update, hup]
      exact insort_append_strict hstrict hnone
  · intro hd
    have hup : updateSide (Delta.mk p d) (b.side s) = b.side s := by
      rw [updateSide_unmatched _ hnone, if_neg (not_lt.mpr hd)]
    have hbR : List.Sorted bidR b.bids := sorted_of_pairwise_strict (s := .bids) hbids
    have haR : List.Sorted askR b.asks := sorted_of_pairwise_strict (s := .asks) hasks
    cases s
    · show ({ b with bids := updateSide (Delta.mk p d) b.bids } : Orderbook).sort = b
      rw [show updateSide (Delta.mk p d) b.bids = b.bids from hup]
      exact Orderbook.sort_eq_self hbR haR
    · show ({ b with asks := updateSide (Delta.mk p d) b.asks } : Orderbook).sort = b
      rw [show updateSide (Delta.mk p d) b.asks = b.asks from hup]
      exact Orderbook.sort_eq_self hbR haR

/-- Witness for C5's amended theorem: inserting `(40, 3)` into a bid side
without price 40, and the silent no-op of `(40, -3)` on the same book. -/
theorem orderbook_update_missing_level_witness :
    (((Orderbook.mk [Level.mk 50 5] [Level.mk 60 2]).update .bids (Delta.mk 40 3)).side
        .bids).Perm ((Orderbook.mk [Level.mk 50 5] [Level.mk 60 2]).side .bids
          ++ [Level.mk 40 3])
    ∧ (Orderbook.mk [Level.mk 50 5] [Level.mk 60 2]).update .bids (Delta.mk 40 (-3))
        = Orderbook.mk [Level.mk 50 5] [Level.mk 60 2] :=
  ⟨((orderbook_update_missing_level (Orderbook.mk [Level.mk 50 5] [Level.mk 60 2]) .bids 40 3
      (by decide) (by decide) (by decide)).1 (by decide)).1,
   (orderbook_update_missing_level (Orderbook.mk [Level.mk 50 5] [Level.mk 60 2]) .bids 40 (-3)
      (by decide) (by decide) (by decide)).2 (by decide)⟩

/-- C8: on a side sorted with unique prices whose levels all have positive
quantity, applying `delta(+q2)` then `delta(-q2)` at the same price `p` (with
`q2 > 0`) returns the side to exactly its prior state — both when a level
already exists at `p` (its quantity rises and falls back) and when none does
(the inserted level is removed again). -/
theorem delta_roundtrip (b : Orderbook) (s : BookSide) (p q2 : Int)
    (hq2 : 0 < q2)
    (hsorted : List.Pairwise (sideStrict s) (b.side s))
    (hpos : ∀ x ∈ b.side s, x.price = p → 0 < x.quantity) :
    ((b.update s (Delta.mk p q2)).update s (Delta.mk p (-q2))).side s = b.side s := by
  by_cases hex : ∃ x ∈ b.side s, x.price = p
  · obtain ⟨x, hx, hxp⟩ := hex
    have hxq : 0 < x.quantity := hpos x hx hxp
    obtain ⟨l1, l2, hsplit⟩ := List.append_of_mem hx
    have hxeq : x = Level.mk p x.quantity := by
      calc x = Level.mk x.price x.quantity := rfl
      _ = Level.mk p x.quantity := by rw [hxp]
    rw [hxeq] at hsplit
    have h1 := update_matched_side b s p x.quantity q2 l1 l2 hsplit hsorted
    have hq1 : 0 < x.quantity + q2 := add_pos hxq hq2
    rw [if_pos hq1] at h1
    have h2 := update_matched_side (b.update s (Delta.mk p q2)) s p (x.quantity + q2) (-q2)
      l1 l2 h1.1 h1.2
    have hq2e : x.quantity + q2 + -q2 = x.quantity := by ring
    rw [hq2e, if_pos hxq] at h2
    rw [h2.1, ← hsplit]
  · push_neg at hex
    have hup1 : updateSide (Delta.mk p q2) (b.side s) = b.side s ++ [Level.mk p q2] := by
      rw [updateSide_unmatched _ hex, if_pos hq2]
    have hside1 : (b.update s (Delta.mk p q2)).side s
        = List.insertionSort (sideRel s) (b.side s ++ [Level.mk p q2]) := by
      rw [side_update, hup1]
    have hperm1 : ((b.update s (Delta.mk p q2)).side s).Perm (b.side s ++ [Level.mk p q2]) := by
      rw [hside1]; exact List.perm_insertionSort _ _
    have hstrict1 : List.Pairwise (sideStrict s) ((b.update s (Delta.mk p q2)).side s) := by
      rw [hside1]; exact insort_append_strict hsorted hex
    have hmem : Level.mk p q2 ∈ (b.update s (Delta.mk p q2)).side s :=
      hperm1.mem_iff.mpr (by simp)
    obtain ⟨m1, m2, hm⟩ := List.append_of_mem hmem
    have hperm1b : (m1 ++ Level.mk p q2 :: m2).Perm (b.side s ++ [Level.mk p q2]) := by
      rw [← hm]; exact hperm1
    have hstrict1b : List.Pairwise (sideStrict s) (m1 ++ Level.mk p q2 :: m2) := by
      rw [← hm]; exact hstrict1
    have h2 := update_matched_side (b.update s (Delta.mk p q2)) s p q2 (-q2) m1 m2 hm hstrict1
    have hzero : ¬ (0 < q2 + -q2) := by simp
    rw [if_neg hzero] at h2
    have hpermfin : (m1 ++ m2).Perm (b.side s) := by
      have e1 : (m1 ++ Level.mk p q2 :: m2).Perm (Level.mk p q2 :: (m1 ++ m2)) :=
        List.perm_middle
      have e2 : (b.side s ++ [Level.mk p q2]).Perm (Level.mk p q2 :: b.side s) :=
        List.perm_append_singleton _ _
      exact (e1.symm.trans (hperm1b.trans e2)).cons_inv
    have hstrictfin : List.Pairwise (sideStrict s) (m1 ++ m2) :=
      pairwise_strict_drop hstrict1b
    rw [h2.1]
    exact List.eq_of_perm_of_sorted hpermfin hstrictfin hsorted

/-- Witness for C8: adding then removing 3 contracts at price 50 on a
one-level bid side restores the side. -/
theorem delta_roundtrip_witness :
    (((Orderbook.mk [Level.mk 50 5] []).update .bids (Delta.mk 50 3)).update .bids
        (Delta.mk 50 (-3))).side .bids
      = (Orderbook.mk [Level.mk 50 5] []).side .bids :=
  delta_roundtrip (Orderbook.mk [Level.mk 50 5] []) .bids 50 3 (by decide) (by decide)
    (by decide)

theorem lookup_setAssoc_ne (k k2 : Int) (v : Subscription) (l : List (Int × Subscription))
    (h : k ≠ k2) : lookupAssoc k (setAssoc k2 v l) = lookupAssoc k l := by
  induction l with
  | nil => simp [setAssoc, lookupAssoc, h]
  | cons a l ih =>
    obtain ⟨k3, v3⟩ := a
    by_cases h2 : k2 = k3
    · subst h2
      simp [setAssoc, lookupAssoc, h]
    · simp [setAssoc, lookupAssoc, h2, ih]

/-- Counterexample to C2: with subscription `id=3, channels={trade}` tracked,
not pending, and `id_counter = 3`, the forced-unsubscription path sends the
re-subscribe under the fresh id `4` but does NOT remove id `3` from the local
subscription map — both the old and the new entry remain. -/
theorem forced_unsub_counterexample :
    (KalshiWsClient.handle_forced_unsubscription
        (ClientState.mk [(3, Subscription.mk ["trade"] ["T1"] 0 0 true)] [] 3 ["T1"])
        3 5).1.subscriptions
      = [(3, Subscription.mk ["trade"] ["T1"] 0 0 true),
         (4, Subscription.mk ["trade"] ["T1"] 5 5 true)]
    ∧ lookupAssoc 3 (KalshiWsClient.handle_forced_unsubscription
        (ClientState.mk [(3, Subscription.mk ["trade"] ["T1"] 0 0 true)] [] 3 ["T1"])
        3 5).1.subscriptions
      = some (Subscription.mk ["trade"] ["T1"] 0 0 true) :=
  ⟨rfl, rfl⟩

/-- C2 as amended: on an `unsubscribed` frame for id S tracked and not
pending, the client sends a new subscribe with exactly the subscription's
channel set under the freshly allocated id `id_counter + 1 > S` — but S stays
in the local subscription map (it is not removed); when S is pending, S is
removed from `pending_unsubscriptions` and no re-subscribe is sent. -/
theorem forced_unsub_behavior (st : ClientState) (sid now : Int) :
    (∀ sub : Subscription, lookupAssoc sid st.subscriptions = some sub →
      sid ∉ st.pending_unsubscriptions → sid ≤ st.id_counter →
      (KalshiWsClient.handle_forced_unsubscription st sid now).2
          = some (SubscribeMsg.mk (st.id_counter + 1) sub.channels (some st.tickers))
        ∧ sid < st.id_counter + 1
        ∧ lookupAssoc sid
            (KalshiWsClient.handle_forced_unsubscription st sid now).1.subscriptions
          = some sub)
    ∧ (sid ∈ st.pending_unsubscriptions →
      (KalshiWsClient.handle_forced_unsubscription st sid now).2 = none
        ∧ (KalshiWsClient.handle_forced_unsubscription st sid now).1.pending_unsubscriptions
            = st.pending_unsubscriptions.erase sid) := by
  constructor
  · intro sub hlook hnp hle
    simp only [KalshiWsClient.handle_forced_unsubscription, hlook, if_neg hnp,
      KalshiWsClient.add_subscription]
    refine ⟨rfl, by omega, ?_⟩
    rw [← hlook]
    exact lookup_setAssoc_ne sid (st.id_counter + 1) _ _ (by omega)
  · intro hp
    cases hl : lookupAssoc sid st.subscriptions <;>
      simp [KalshiWsClient.handle_forced_unsubscription, hl, hp]

/-- Witness for C2's amended theorem: the tracked-and-not-pending case at id 3
(counter 3) and the pending case at id 7. -/
theorem forced_unsub_behavior_witness :
    ((KalshiWsClient.handle_forced_unsubscription
        (ClientState.mk [(3, Subscription.mk ["trade"] ["T1"] 0 0 true)] [] 3 ["T1"])
        3 5).2 = some (SubscribeMsg.mk (3 + 1) ["trade"] (some ["T1"]))
      ∧ (3 : Int) < 3 + 1
      ∧ lookupAssoc 3 (KalshiWsClient.handle_forced_unsubscription
          (ClientState.mk [(3, Subscription.mk ["trade"] ["T1"] 0 0 true)] [] 3 ["T1"])
          3 5).1.subscriptions = some (Subscription.mk ["trade"] ["T1"] 0 0 true))
    ∧ ((KalshiWsClient.handle_forced_unsubscription (ClientState.mk [] [7] 9 []) 7 0).2 = none
      ∧ (KalshiWsClient.handle_forced_unsubscription
          (ClientState.mk [] [7] 9 []) 7 0).1.pending_unsubscriptions
        = ([7] : List Int).erase 7) :=
  ⟨(forced_unsub_behavior
      (ClientState.mk [(3, Subscription.mk ["trade"] ["T1"] 0 0 true)] [] 3 ["T1"]) 3 5).1
      (Subscription.mk ["trade"] ["T1"] 0 0 true) rfl (by decide) (by decide),
   (forced_unsub_behavior (ClientState.mk [] [7] 9 []) 7 0).2 (by decide)⟩
